import Mathlib

/-!
Verification of the span annotation store and text-synchronization engine
of the QualCoder source (code_text.py, manage_files.py).

Character positions are modelled as `Int` (Python integers), document text
and cached selected text as `List Char`. Each definition mirrors one Python
function or SQL statement of the source; GUI plumbing (dialogs, message
boxes) is modelled by the value it feeds into the data path: a message box
becomes a reported flag or list, and a `QInputDialog.getInt(.., min, max)`
becomes a validation of the requested integer against the same min/max
bounds the source passes to the dialog.
-/

/-- One row of the `code_text` table: a coded span.
Fields follow the source keys `cid, fid, pos0, pos1, seltext, owner`. -/
structure CodedText where
  cid : Int
  fid : Int
  pos0 : Int
  pos1 : Int
  seltext : List Char
  owner : String
  deriving DecidableEq

/-- One row of the `annotation` table (fields `anid, fid, pos0, pos1, owner`). -/
structure NoteRow where
  anid : Int
  fid : Int
  pos0 : Int
  pos1 : Int
  owner : String
  deriving DecidableEq

/-- One row of the `case_text` table (fields `id, fid, pos0, pos1`). -/
structure CaseRow where
  id : Int
  fid : Int
  pos0 : Int
  pos1 : Int
  deriving DecidableEq

/-! ## Resize operations (code_text.py) -/

/-- Model of `extend_left` (code_text.py): a no-op when `pos0 < 1`, else `pos0 -= 1`. -/
def extend_left (c : CodedText) : CodedText :=
  if c.pos0 < 1 then c else { c with pos0 := c.pos0 - 1 }

/-- Model of `extend_right` (code_text.py): no-op when `pos1 + 1 >= len(text)`, else `pos1 += 1`. -/
def extend_right (c : CodedText) (txtLen : Int) : CodedText :=
  if c.pos1 + 1 ≥ txtLen then c else { c with pos1 := c.pos1 + 1 }

/-- Model of `shrink_to_left` (code_text.py): no-op when `pos1 <= pos0 + 1`, else `pos1 -= 1`. -/
def shrink_to_left (c : CodedText) : CodedText :=
  if c.pos1 ≤ c.pos0 + 1 then c else { c with pos1 := c.pos1 - 1 }

/-- Model of `shrink_to_right` (code_text.py): no-op when `pos0 >= pos1 - 1`, else `pos0 += 1`. -/
def shrink_to_right (c : CodedText) : CodedText :=
  if c.pos0 ≥ c.pos1 - 1 then c else { c with pos0 := c.pos0 + 1 }

/-- Model of `change_code_pos` (code_text.py), the start path.
The source asks for `changed_start` through `QInputDialog.getInt` with bounds
`min = -pos0` and `max = pos1 - pos0 - 1`; a request outside those bounds
cannot be returned by the dialog, modelled as `none` (span unchanged).
`changed_start == 0` also returns without an update. -/
def change_code_pos_start (c : CodedText) (v : Int) : Option CodedText :=
  if -c.pos0 ≤ v ∧ v ≤ c.pos1 - c.pos0 - 1 then
    if v = 0 then none else some { c with pos0 := c.pos0 + v }
  else none

/-- Model of `change_code_pos` (code_text.py), the end path, with dialog
bounds `min = pos0 - pos1 + 1` and `max = txt_len - pos1`. -/
def change_code_pos_end (c : CodedText) (txtLen v : Int) : Option CodedText :=
  if c.pos0 - c.pos1 + 1 ≤ v ∧ v ≤ txtLen - c.pos1 then
    if v = 0 then none else some { c with pos1 := c.pos1 + v }
  else none

/-! ## Python slicing and the document/edit state (manage_files.py) -/

/-- Python index normalization for slices: a negative index counts from the
end (clamped at 0), a non-negative one is clamped at the length. -/
def pyIdx (n : Nat) (i : Int) : Nat :=
  if i < 0 then ((n : Int) + i).toNat else min i.toNat n

/-- Python slice `s[a:b]` on a list of characters. -/
def pySlice (s : List Char) (a b : Int) : List Char :=
  (s.take (pyIdx s.length b)).drop (pyIdx s.length a)

/-- The state touched by `ManageFiles.restricted_edit_text`: the document
text (the fulltext column of the source table) and the three span tables
for that document. -/
structure EditState where
  fulltext : List Char
  code_text : List CodedText
  notes : List NoteRow
  case_text : List CaseRow
  deriving DecidableEq

/-- The return dictionary of `crossover_check` plus the row lists the source
shows in its warning message boxes (`code_crossover`, `annote_crossover`). -/
structure CrossResponse where
  crossover : Bool
  code_crossover : List (Int × Int)
  annote_crossover : List (Int × Int)
  coded_section : List (Int × Int)
  annoted_section : List (Int × Int)
  cased_section : List (Int × Int)
  deriving DecidableEq

/-- The `code_text` rows reported by the first `crossover_check` query:
`(pos0>? and pos0<?) or (pos1>? and pos1<?)` with
`(selstart, selend, selstart, selend)`. -/
def code_cross_rows (st : EditState) (fid selstart selend : Int) : List (Int × Int) :=
  (st.code_text.filter (fun r =>
    decide (r.fid = fid) &&
      ((decide (selstart < r.pos0) && decide (r.pos0 < selend)) ||
       (decide (selstart < r.pos1) && decide (r.pos1 < selend))))).map
    (fun r => (r.pos0, r.pos1))

/-- The `annotation` rows of the analogous crossover query. -/
def ann_cross_rows (st : EditState) (fid selstart selend : Int) : List (Int × Int) :=
  (st.notes.filter (fun r =>
    decide (r.fid = fid) &&
      ((decide (selstart < r.pos0) && decide (r.pos0 < selend)) ||
       (decide (selstart < r.pos1) && decide (r.pos1 < selend))))).map
    (fun r => (r.pos0, r.pos1))

/-- The `code_text` rows containing the selection:
`?>=pos0 and ?<=pos1` with `(selstart, selend)`. -/
def coded_section_rows (st : EditState) (fid selstart selend : Int) : List (Int × Int) :=
  (st.code_text.filter (fun r =>
    decide (r.fid = fid) && decide (selstart ≥ r.pos0) && decide (selend ≤ r.pos1))).map
    (fun r => (r.pos0, r.pos1))

/-- The `annotation` rows containing the selection. -/
def ann_section_rows (st : EditState) (fid selstart selend : Int) : List (Int × Int) :=
  (st.notes.filter (fun r =>
    decide (r.fid = fid) && decide (selstart ≥ r.pos0) && decide (selend ≤ r.pos1))).map
    (fun r => (r.pos0, r.pos1))

/-- The `case_text` rows containing the selection. -/
def cased_section_rows (st : EditState) (fid selstart selend : Int) : List (Int × Int) :=
  (st.case_text.filter (fun r =>
    decide (r.fid = fid) && decide (selstart ≥ r.pos0) && decide (selend ≤ r.pos1))).map
    (fun r => (r.pos0, r.pos1))

/-- Model of `crossover_check` (manage_files.py). A non-empty code crossover list
returns immediately with `crossover = True` and nothing else collected; a
non-empty annotation crossover list returns with `crossover = True` but the
already-assigned `coded_section` kept; otherwise the three containment
sections are collected and `crossover = False`.
The `case_text` table is only queried for containment, never for crossover. -/
def crossover_check (st : EditState) (fid selstart selend : Int) : CrossResponse :=
  if code_cross_rows st fid selstart selend = [] then
    if ann_cross_rows st fid selstart selend = [] then
      { crossover := false, code_crossover := [], annote_crossover := [],
        coded_section := coded_section_rows st fid selstart selend,
        annoted_section := ann_section_rows st fid selstart selend,
        cased_section := cased_section_rows st fid selstart selend }
    else
      { crossover := true, code_crossover := [],
        annote_crossover := ann_cross_rows st fid selstart selend,
        coded_section := coded_section_rows st fid selstart selend,
        annoted_section := [], cased_section := [] }
  else
    { crossover := true, code_crossover := code_cross_rows st fid selstart selend,
      annote_crossover := [], coded_section := [], annoted_section := [],
      cased_section := [] }

/-- Model of `restricted_edit_text` (manage_files.py). Replaces
`fulltext[selstart:selend]` with `newtext`, then (when the length changed)
shifts the spans reported by the three `pos1>? and not(?>=pos0 and ?<=pos1)`
queries by `length_diff`, re-runs `crossover_check` on the updated tables,
and applies the coded/annoted/cased section updates with the same SQL
`where` keys as the source (`fid, pos0, pos1` for codes, `anid` / `id` for
the shift phase of annotations and cases). -/
def restricted_edit_text (st : EditState) (fid selstart selend : Int)
    (newtext : List Char) : EditState :=
  let txt := pySlice st.fulltext selstart selend
  if txt.length > 20 then st
  else
    let before := pySlice st.fulltext 0 selstart
    let after := pySlice st.fulltext selend (st.fulltext.length : Int)
    let fulltext2 := before ++ newtext ++ after
    let st1 : EditState := { st with fulltext := fulltext2 }
    let delta : Int := (newtext.length : Int) - (txt.length : Int)
    if delta = 0 then st1
    else
      let postCase := st.case_text.filter (fun r =>
        decide (r.fid = fid) && decide (r.pos1 > selend) &&
          !(decide (selstart ≥ r.pos0) && decide (selend ≤ r.pos1)))
      let postAnn := st.notes.filter (fun r =>
        decide (r.fid = fid) && decide (r.pos1 > selend) &&
          !(decide (selstart ≥ r.pos0) && decide (selend ≤ r.pos1)))
      let postCode := (st.code_text.filter (fun r =>
        decide (r.fid = fid) && decide (r.pos1 > selend) &&
          !(decide (selstart ≥ r.pos0) && decide (selend ≤ r.pos1)))).map
        (fun r => (r.pos0, r.pos1))
      let case1 := postCase.foldl (fun cs i => cs.map (fun r =>
        if r.id = i.id then { r with pos0 := i.pos0 + delta, pos1 := i.pos1 + delta }
        else r)) st1.case_text
      let ann1 := postAnn.foldl (fun ns i => ns.map (fun r =>
        if r.anid = i.anid then { r with pos0 := i.pos0 + delta, pos1 := i.pos1 + delta }
        else r)) st1.notes
      let code1 := postCode.foldl (fun cs p => cs.map (fun r =>
        if r.fid = fid ∧ r.pos0 = p.1 ∧ r.pos1 = p.2 then
          { r with pos0 := p.1 + delta, pos1 := p.2 + delta }
        else r)) st1.code_text
      let st2 : EditState :=
        { st1 with case_text := case1, notes := ann1, code_text := code1 }
      let crossovers := crossover_check st2 fid selstart selend
      let code2 := crossovers.coded_section.foldl (fun cs p => cs.map (fun r =>
        if r.fid = fid ∧ r.pos0 = p.1 ∧ r.pos1 = p.2 then
          { r with seltext := pySlice fulltext2 p.1 (p.2 + delta), pos1 := p.2 + delta }
        else r)) st2.code_text
      let ann2 := crossovers.annoted_section.foldl (fun ns p => ns.map (fun r =>
        if r.fid = fid ∧ r.pos0 = p.1 ∧ r.pos1 = p.2 then { r with pos1 := p.2 + delta }
        else r)) st2.notes
      let case2 := crossovers.cased_section.foldl (fun cs p => cs.map (fun r =>
        if r.fid = fid ∧ r.pos0 = p.1 ∧ r.pos1 = p.2 then { r with pos1 := p.2 + delta }
        else r)) st2.case_text
      { st2 with code_text := code2, notes := ann2, case_text := case2 }

/-- Model of `textEdit_restricted_menu` (manage_files.py), edit action: requires a
non-empty document, a selection of 1..20 characters, then rejects when
`crossover_check` reports a crossover and otherwise performs the edit. -/
def textEdit_restricted_menu (st : EditState) (fid selstart selend : Int)
    (newtext : List Char) : EditState :=
  if st.fulltext = [] then st
  else
    let selected_text := pySlice st.fulltext selstart selend
    if 0 < selected_text.length ∧ selected_text.length < 21 then
      if (crossover_check st fid selstart selend).crossover then st
      else restricted_edit_text st fid selstart selend newtext
    else st

/-! ## Overlap computation (code_text.py, apply_overline_to_overlaps) -/

/-- The entries `apply_overline_to_overlaps` appends for one ordered pair
`(i, j)` of its nested loops: skipped when `j == i` (Python dict equality,
i.e. all fields equal) or when not `j.pos0 <= i.pos0 and j.pos1 >= i.pos0`;
otherwise one pair from the four-way branch, in source order. -/
def overlapEntries (i j : CodedText) : List (Int × Int) :=
  if j = i then []
  else if j.pos0 ≤ i.pos0 ∧ j.pos1 ≥ i.pos0 then
    if j.pos0 ≥ i.pos0 ∧ j.pos1 ≤ i.pos1 then [(j.pos0, j.pos1)]
    else if i.pos0 ≥ j.pos0 ∧ i.pos1 ≤ j.pos1 then [(i.pos0, i.pos1)]
    else if j.pos0 > i.pos0 then [(j.pos0, i.pos1)]
    else [(j.pos1, i.pos0)]
  else []

/-- The full `overlaps` list built by `apply_overline_to_overlaps`:
`for i in self.code_text: for j in self.code_text: ...` in order. -/
def apply_overline_to_overlaps (code_text : List CodedText) : List (Int × Int) :=
  code_text.flatMap (fun i => code_text.flatMap (fun j => overlapEntries i j))

/-! ## Manual insert / delete (code_text.py) -/

/-- The duplicate key of `code_text`: the source checks
`cid = ? and fid=? and pos0=? and pos1=? and owner=?` before inserting, and
the unique constraint of the table covers the same columns. -/
def sameKey (a b : CodedText) : Bool :=
  decide (a.cid = b.cid) && decide (a.fid = b.fid) && decide (a.pos0 = b.pos0) &&
    decide (a.pos1 = b.pos1) && decide (a.owner = b.owner)

/-- Model of `mark` (code_text.py), duplicate handling: when a row with the same
`(cid, fid, pos0, pos1, owner)` exists the method warns ("Already Coded")
and returns without inserting; otherwise the row is appended. The returned
`Bool` is the conflict report. -/
def mark (db : List CodedText) (coded : CodedText) : List CodedText × Bool :=
  if db.filter (fun r => sameKey r coded) = [] then (db ++ [coded], false)
  else (db, true)

/-- Model of `unmark` (code_text.py), the delete once a span `u` has been chosen:
`delete from code_text where cid=? and pos0=? and pos1=? and owner=? and fid=?`
with the coder name as owner. -/
def unmark_delete (db : List CodedText) (coder : String) (u : CodedText) :
    List CodedText :=
  db.filter (fun r => !(decide (r.cid = u.cid) && decide (r.pos0 = u.pos0) &&
    decide (r.pos1 = u.pos1) && decide (r.owner = coder) && decide (r.fid = u.fid)))

/-- Model of the blank-memo removal path of the annotate method
(code_text.py): the database delete
is `delete from annotation where pos0 = ?` with only the start
position of the chosen item. -/
def note_delete_db (db : List NoteRow) (p : Int) : List NoteRow :=
  db.filter (fun n => !(decide (n.pos0 = p)))

/-! ## Auto coding (code_text.py, auto_code and code_sentences) -/

/-- Whether `pat` is an initial segment of `text`. -/
def startsWithL : List Char → List Char → Bool
  | [], _ => true
  | _ :: _, [] => false
  | a :: as, b :: bs => a == b && startsWithL as bs

/-- Fuelled scan for the start offsets of the non-overlapping, leftmost
occurrences of `pat`, as `re.finditer(re.escape(txt), text)` yields them. -/
def matchStartsFuel (pat : List Char) : Nat → List Char → Nat → List Nat
  | 0, _, _ => []
  | Nat.succ fuel, text, offset =>
    match text with
    | [] => []
    | c :: rest =>
      if startsWithL pat (c :: rest) then
        offset :: matchStartsFuel pat fuel (List.drop pat.length (c :: rest))
          (offset + pat.length)
      else
        matchStartsFuel pat fuel rest (offset + 1)

/-- Start offsets of the matches of `pat` in `text` (non-empty `pat`). -/
def matchStarts (pat text : List Char) : List Nat :=
  matchStartsFuel pat text.length text 0

/-- Python `pat in s` substring test, for non-empty `pat`. -/
def containsSub (pat s : List Char) : Bool :=
  !(matchStarts pat s).isEmpty

/-- Fuelled Python `str.split(sep)` scan for non-empty `sep`. -/
def splitOnFuel (sep : List Char) : Nat → List Char → List Char → List (List Char)
  | 0, acc, _ => [acc.reverse]
  | Nat.succ fuel, acc, text =>
    match text with
    | [] => [acc.reverse]
    | c :: rest =>
      if startsWithL sep (c :: rest) then
        acc.reverse :: splitOnFuel sep fuel [] (List.drop sep.length (c :: rest))
      else
        splitOnFuel sep fuel (c :: acc) rest

/-- Python `text.split(sep)` on character lists (callers guard `sep != ""`). -/
def splitOnL (sep text : List Char) : List (List Char) :=
  if sep = [] then [text] else splitOnFuel sep (text.length + 1) [] text

/-- One `insert into code_text` attempt under the unique constraint
on `(cid, fid, pos0, pos1, owner)`: the `IntegrityError` of a duplicate is
caught by the try/except of the source, leaving the table unchanged. -/
def dbInsert (db : List CodedText) (r : CodedText) : List CodedText :=
  if db.filter (fun q => sameKey q r) = [] then db ++ [r] else db

/-- Model of `auto_code` (code_text.py), one literal fragment `txt` over one file:
every `re.finditer` match start becomes an insert attempt for
`[startPos, startPos + len(txt))`; a conflict is swallowed and the loop
continues with the next match. -/
def auto_code_file (db : List CodedText) (cid fid : Int) (owner : String)
    (txt text : List Char) : List CodedText :=
  (matchStarts txt text).foldl (fun d p =>
    dbInsert d { cid := cid, fid := fid, pos0 := (p : Int),
                 pos1 := (p : Int) + (txt.length : Int), seltext := txt,
                 owner := owner }) db

/-- Model of `code_sentences` (code_text.py), one file: split `fulltext` on `ending`,
and for every sentence containing `frag` increment `codes_added` and attempt
the insert of the whole-sentence span (the increment precedes the insert
inside the `try`, so a swallowed duplicate conflict still counts);
`pos0` advances by `len(sentence) + len(ending)`. Returns the updated table
and the reported `codes_added`. -/
def code_sentences_file (db : List CodedText) (cid fid : Int) (owner : String)
    (frag ending fulltext : List Char) : List CodedText × Nat :=
  let out := (splitOnL ending fulltext).foldl
    (fun (acc : List CodedText × Int × Nat) sentence =>
      match acc with
      | (d, pos0, added) =>
        let step :=
          if containsSub frag sentence then
            (dbInsert d { cid := cid, fid := fid, pos0 := pos0,
                          pos1 := pos0 + (sentence.length : Int),
                          seltext := sentence, owner := owner }, added + 1)
          else (d, added)
        (step.1, pos0 + (sentence.length : Int) + (ending.length : Int), step.2))
    (db, 0, 0)
  match out with
  | (d, _, added) => (d, added)

/-! ## Concrete scenarios -/

/-- A 25-character document used by the remap scenarios. -/
def remapDoc : List Char := "abcdefghijklmnopqrstuvwxy".toList

/-- Remap scenario of the spec: spans `[5,10)`, `[15,20)`, `[8,14)` over the
25-character document, with consistent cached `seltext`. -/
def remapState : EditState :=
  { fulltext := remapDoc,
    code_text := [{ cid := 1, fid := 1, pos0 := 5, pos1 := 10,
                    seltext := "fghij".toList, owner := "A" },
                  { cid := 2, fid := 1, pos0 := 15, pos1 := 20,
                    seltext := "pqrst".toList, owner := "A" },
                  { cid := 3, fid := 1, pos0 := 8, pos1 := 14,
                    seltext := "ijklmn".toList, owner := "A" }],
    notes := [], case_text := [] }

/-- The state the edit replacing `[12,14)` by `"MNOPQ"` produces from
`remapState`: `[5,10)` untouched, `[15,20)` shifted to `[18,23)`, and the
containing span `[8,14)` grown to `[8,17)` with its `seltext` recomputed. -/
def remapStateAfter : EditState :=
  { fulltext := "abcdefghijklMNOPQopqrstuvwxy".toList,
    code_text := [{ cid := 1, fid := 1, pos0 := 5, pos1 := 10,
                    seltext := "fghij".toList, owner := "A" },
                  { cid := 2, fid := 1, pos0 := 18, pos1 := 23,
                    seltext := "pqrst".toList, owner := "A" },
                  { cid := 3, fid := 1, pos0 := 8, pos1 := 17,
                    seltext := "ijklMNOPQ".toList, owner := "A" }],
    notes := [], case_text := [] }

/-- A document state with one span `[12,15)` lying strictly inside the
selection `[10,20)` used for the inside-span edit scenario. -/
def insideSpanState : EditState :=
  { fulltext := remapDoc,
    code_text := [{ cid := 1, fid := 1, pos0 := 12, pos1 := 15,
                    seltext := "mno".toList, owner := "A" }],
    notes := [], case_text := [] }

/-- A document state with one span exactly equal to the selection `[12,14)`. -/
def exactSpanState : EditState :=
  { fulltext := remapDoc,
    code_text := [{ cid := 1, fid := 1, pos0 := 12, pos1 := 14,
                    seltext := "mn".toList, owner := "A" }],
    notes := [], case_text := [] }

/-- The state `exactSpanState` reaches after replacing `[12,14)` by `"MNOPQ"`. -/
def exactSpanStateAfter : EditState :=
  { fulltext := "abcdefghijklMNOPQopqrstuvwxy".toList,
    code_text := [{ cid := 1, fid := 1, pos0 := 12, pos1 := 17,
                    seltext := "MNOPQ".toList, owner := "A" }],
    notes := [], case_text := [] }

/-- A document state whose only span is a case link `[10,15)` straddling the
selection `[12,20)` (its `pos1 = 15` lies strictly inside the selection). -/
def caseStraddleState : EditState :=
  { fulltext := remapDoc, code_text := [], notes := [],
    case_text := [{ id := 1, fid := 1, pos0 := 10, pos1 := 15 }] }

/-- The end-to-end document of the spec scenario. -/
def endToEndDoc : List Char := "The cat sat. The dog ran.".toList

/-- End-to-end scenario: span `(tag 1, "A", [4,7))` caching `"cat"` and a
second span at `[13,16)` caching `"The"`. -/
def endToEndState : EditState :=
  { fulltext := endToEndDoc,
    code_text := [{ cid := 1, fid := 1, pos0 := 4, pos1 := 7,
                    seltext := "cat".toList, owner := "A" },
                  { cid := 2, fid := 1, pos0 := 13, pos1 := 16,
                    seltext := "The".toList, owner := "A" }],
    notes := [], case_text := [] }

/-- The state `endToEndState` reaches after replacing `[4,7)` with `"kitten"`. -/
def endToEndStateAfter : EditState :=
  { fulltext := "The kitten sat. The dog ran.".toList,
    code_text := [{ cid := 1, fid := 1, pos0 := 4, pos1 := 10,
                    seltext := "kitten".toList, owner := "A" },
                  { cid := 2, fid := 1, pos0 := 16, pos1 := 19,
                    seltext := "The".toList, owner := "A" }],
    notes := [], case_text := [] }

/-! ## C10: extension no-ops at the document boundaries -/

/-- C10: `extend_right` is a no-op whenever `pos1 + 1 >= document_length`,
so an extension never produces `pos1 = document_length` — the end stays at
most `document_length - 1`; symmetrically `extend_left` is a no-op at
`pos0 = 0`, so the start never becomes negative. -/
theorem extend_noop_at_bounds (c : CodedText) (L : Int) :
    (c.pos1 + 1 ≥ L → extend_right c L = c) ∧
    (c.pos1 ≤ L - 1 → (extend_right c L).pos1 ≤ L - 1) ∧
    (c.pos0 = 0 → extend_left c = c) ∧
    (0 ≤ c.pos0 → 0 ≤ (extend_left c).pos0) := by
  refine ⟨?_, ?_, ?_, ?_⟩
  · intro h
    simp [extend_right, if_pos h]
  · intro h
    unfold extend_right
    split_ifs <;> (try simp) <;> omega
  · intro h
    simp [extend_left]
    omega
  · intro h
    unfold extend_left
    split_ifs <;> (try simp) <;> omega

/-- Witness for `extend_noop_at_bounds` at the span `[3,9)` of a
10-character document. -/
theorem extend_noop_at_bounds_wit :
    (((3 : Int) + 1 ≥ 10 → extend_right ⟨1, 1, 2, 3, [], "A"⟩ 10 = ⟨1, 1, 2, 3, [], "A"⟩) ∧
     ((3 : Int) ≤ 10 - 1 → (extend_right ⟨1, 1, 2, 3, [], "A"⟩ 10).pos1 ≤ 10 - 1) ∧
     ((2 : Int) = 0 → extend_left ⟨1, 1, 2, 3, [], "A"⟩ = ⟨1, 1, 2, 3, [], "A"⟩) ∧
     ((0 : Int) ≤ 2 → 0 ≤ (extend_left ⟨1, 1, 2, 3, [], "A"⟩).pos0)) :=
  extend_noop_at_bounds ⟨1, 1, 2, 3, [], "A"⟩ 10

/-! ## C8: resize operations keep the one-character minimum -/

/-- C8: every accepted resize keeps `pos0 < pos1` strictly: the two
`change_code_pos` directions (whose dialog bounds reject anything that
would empty the span), and the four directional shrink/extend operations;
concretely, shrinking `[5,10)` to `[5,6)` (end change `-4`) is accepted
while the end change `-5`, which would produce `[5,5)`, is rejected with
the span unchanged. -/
theorem resize_keeps_min_length (c c' c'' : CodedText) (L v w : Int)
    (h : c.pos0 < c.pos1) :
    (change_code_pos_start c v = some c' → c'.pos0 < c'.pos1) ∧
    (change_code_pos_end c L w = some c'' → c''.pos0 < c''.pos1) ∧
    (shrink_to_left c).pos0 < (shrink_to_left c).pos1 ∧
    (shrink_to_right c).pos0 < (shrink_to_right c).pos1 ∧
    (extend_left c).pos0 < (extend_left c).pos1 ∧
    (extend_right c L).pos0 < (extend_right c L).pos1 ∧
    change_code_pos_end ⟨1, 1, 5, 10, [], "A"⟩ 30 (-4) =
      some ⟨1, 1, 5, 6, [], "A"⟩ ∧
    change_code_pos_end ⟨1, 1, 5, 10, [], "A"⟩ 30 (-5) = none := by
  refine ⟨?_, ?_, ?_, ?_, ?_, ?_, by decide, by decide⟩
  · intro hs
    unfold change_code_pos_start at hs
    split_ifs at hs with h1 h2
    cases hs
    simp
    omega
  · intro hs
    unfold change_code_pos_end at hs
    split_ifs at hs with h1 h2
    cases hs
    simp
    omega
  · unfold shrink_to_left
    split_ifs <;> (try simp) <;> omega
  · unfold shrink_to_right
    split_ifs <;> (try simp) <;> omega
  · unfold extend_left
    split_ifs <;> (try simp) <;> omega
  · unfold extend_right
    split_ifs <;> (try simp) <;> omega

/-- Witness for `resize_keeps_min_length` at the span `[5,10)` with a
30-character document and requested changes `-4` / `-4`. -/
theorem resize_keeps_min_length_wit :
    ((change_code_pos_start ⟨1, 1, 5, 10, [], "A"⟩ (-4) =
        some ⟨1, 1, 1, 10, [], "A"⟩ →
      (1 : Int) < 10) ∧
     (change_code_pos_end ⟨1, 1, 5, 10, [], "A"⟩ 30 (-4) =
        some ⟨1, 1, 5, 6, [], "A"⟩ →
      (5 : Int) < 6) ∧
     (shrink_to_left ⟨1, 1, 5, 10, [], "A"⟩).pos0 <
       (shrink_to_left ⟨1, 1, 5, 10, [], "A"⟩).pos1 ∧
     (shrink_to_right ⟨1, 1, 5, 10, [], "A"⟩).pos0 <
       (shrink_to_right ⟨1, 1, 5, 10, [], "A"⟩).pos1 ∧
     (extend_left ⟨1, 1, 5, 10, [], "A"⟩).pos0 <
       (extend_left ⟨1, 1, 5, 10, [], "A"⟩).pos1 ∧
     (extend_right ⟨1, 1, 5, 10, [], "A"⟩ 30).pos0 <
       (extend_right ⟨1, 1, 5, 10, [], "A"⟩ 30).pos1 ∧
     change_code_pos_end ⟨1, 1, 5, 10, [], "A"⟩ 30 (-4) =
       some ⟨1, 1, 5, 6, [], "A"⟩ ∧
     change_code_pos_end ⟨1, 1, 5, 10, [], "A"⟩ 30 (-5) = none) :=
  resize_keeps_min_length ⟨1, 1, 5, 10, [], "A"⟩ ⟨1, 1, 1, 10, [], "A"⟩
    ⟨1, 1, 5, 6, [], "A"⟩ 30 (-4) (-4) (by decide)

/-! ## C1: overlap reporting -/

/-- Every ordered pair with equal first and second component contributes
nothing (`j != i` in the source loop skips it). -/
theorem overlapEntries_self (i : CodedText) : overlapEntries i i = [] := by
  simp [overlapEntries]

/-- For a two-span snapshot the overlaps list is the concatenation of the
two ordered-pair contributions. -/
theorem apply_overline_pair (i j : CodedText) :
    apply_overline_to_overlaps [i, j] = overlapEntries i j ++ overlapEntries j i := by
  simp [apply_overline_to_overlaps, overlapEntries_self]

/-- C1 counterexample: the spans `[0,10)` and `[0,5)` are distinct and
intersect (`0 < 5` and `0 < 10`), yet `apply_overline_to_overlaps` reports
the unordered pair twice — `[(0,5), (0,5)]` — not exactly once as claimed. -/
theorem overlap_equal_starts_double_report_cex :
    apply_overline_to_overlaps
      [{ cid := 1, fid := 1, pos0 := 0, pos1 := 10, seltext := [], owner := "A" },
       { cid := 2, fid := 1, pos0 := 0, pos1 := 5, seltext := [], owner := "A" }] =
      [(0, 5), (0, 5)] ∧
    ({ cid := 1, fid := 1, pos0 := 0, pos1 := 10, seltext := [], owner := "A" } :
        CodedText) ≠
      { cid := 2, fid := 1, pos0 := 0, pos1 := 5, seltext := [], owner := "A" } ∧
    ((0 : Int) < 5 ∧ (0 : Int) < 10) := by
  refine ⟨by decide, by decide, by decide⟩

/-! ## C2 and C3 counterexamples: which spans make an edit illegal -/

/-- C2 counterexample: for the spans `[5,10)`, `[15,20)`, `[8,14)` and the
edit selection `[12,14)`, `crossover_check` reports no crossover — the span
`[8,14)` does not cause a rejection (its `pos1 = 14` is not strictly below
the selection end 14) — and the edit then goes ahead and changes the state,
contrary to the claimed rejection. -/
theorem edit_not_rejected_cex :
    (crossover_check remapState 1 12 14).crossover = false ∧
    textEdit_restricted_menu remapState 1 12 14 ("MNOPQ".toList) ≠ remapState := by
  refine ⟨by decide, by decide⟩

/-- C2 amended: the edit replacing `[12,14)` by the 5-character `"MNOPQ"`
(delta = +3) is accepted: `[5,10)` is unchanged, `[15,20)` becomes
`[18,23)`, and the span `[8,14)`, which contains the selection, becomes
`[8,17)` with its `seltext` recomputed from the new text. -/
theorem remap_concrete_spans :
    textEdit_restricted_menu remapState 1 12 14 ("MNOPQ".toList) =
      remapStateAfter := by
  decide

/-- C3 counterexample: a span `[12,15)` lying entirely (strictly) inside
the edit region `[10,20)` makes `crossover_check` report a crossover, so
the edit is rejected and the state left unchanged, so the claimed "the edit
is accepted" is false. -/
theorem inside_span_rejected_cex :
    (crossover_check insideSpanState 1 10 20).crossover = true ∧
    textEdit_restricted_menu insideSpanState 1 10 20 ("X".toList) =
      insideSpanState := by
  refine ⟨by decide, by decide⟩

/-! ## C4 counterexample: case-link straddles are not checked -/

/-- C4 counterexample: a case link `[10,15)` straddles the edit selection
`[12,20)` (its end 15 lies strictly inside), yet `crossover_check` reports
no crossover; the edit proceeds — the document text changes — while the
straddling case span is left untouched, contrary to the claimed rejection
with unchanged state. -/
theorem case_straddle_not_rejected_cex :
    (crossover_check caseStraddleState 1 12 20).crossover = false ∧
    (textEdit_restricted_menu caseStraddleState 1 12 20 ("AB".toList)).fulltext ≠
      caseStraddleState.fulltext ∧
    (textEdit_restricted_menu caseStraddleState 1 12 20 ("AB".toList)).case_text =
      caseStraddleState.case_text := by
  refine ⟨by decide, by decide, by decide⟩

/-! ## C6: end-to-end remap with selected-text consistency -/

/-- C6: for `"The cat sat. The dog ran."` with the span `[4,7)` caching
`"cat"` and a span `[13,16)` caching `"The"`, the edit replacing `[4,7)`
by `"kitten"` (delta = +3) turns the first span into `[4,10)` with
`seltext = "kitten"` and shifts the second to `[16,19)`; afterwards every
cached `seltext` of every span equals the new document text sliced from its start to its
end. -/
theorem end_to_end_remap :
    textEdit_restricted_menu endToEndState 1 4 7 ("kitten".toList) =
      endToEndStateAfter ∧
    ∀ r ∈ endToEndStateAfter.code_text,
      r.seltext = pySlice endToEndStateAfter.fulltext r.pos0 r.pos1 := by
  refine ⟨by decide, by decide⟩

/-! ## C5: duplicate insert is a reported no-op -/

/-- C5: when exactly one stored span already has the key
`(cid, fid, pos0, pos1, owner)` of the span being inserted, `mark` leaves
the store unchanged — exactly one span with that key remains — and reports
the conflict (the "Already Coded" warning); nothing is overwritten and no
second copy is added. -/
theorem mark_duplicate_is_conflict (db : List CodedText) (coded : CodedText)
    (h : (db.filter (fun r => sameKey r coded)).length = 1) :
    mark db coded = (db, true) ∧
    ((mark db coded).1.filter (fun r => sameKey r coded)).length = 1 := by
  have hne : db.filter (fun r => sameKey r coded) ≠ [] := by
    intro h0
    rw [h0] at h
    simp at h
  unfold mark
  rw [if_neg hne]
  exact ⟨rfl, h⟩

/-- Witness for `mark_duplicate_is_conflict`: re-inserting the stored span
`(1, 1, 8, 11, "A")`. -/
theorem mark_duplicate_is_conflict_wit :
    mark [{ cid := 1, fid := 1, pos0 := 8, pos1 := 11, seltext := "cat".toList,
            owner := "A" }]
        { cid := 1, fid := 1, pos0 := 8, pos1 := 11, seltext := "xxx".toList,
          owner := "A" } =
      ([{ cid := 1, fid := 1, pos0 := 8, pos1 := 11, seltext := "cat".toList,
          owner := "A" }], true) ∧
    ((mark [{ cid := 1, fid := 1, pos0 := 8, pos1 := 11, seltext := "cat".toList,
              owner := "A" }]
        { cid := 1, fid := 1, pos0 := 8, pos1 := 11, seltext := "xxx".toList,
          owner := "A" }).1.filter (fun r => sameKey r
        { cid := 1, fid := 1, pos0 := 8, pos1 := 11, seltext := "xxx".toList,
          owner := "A" })).length = 1 :=
  mark_duplicate_is_conflict _ _ (by decide)

/-! ## C7: auto-coding conflicts -/

/-- C7 counterexample: the sentence rule on `"A cat. B cat. C cat"` with
fragment `"cat"`, ending `". "` and a pre-existing identical span at
`[7,12)` reports `codes_added = 3` — the count is incremented before the
insert inside the `try`, so the swallowed duplicate is counted — while the
store only gains 2 rows; no `{attempted, inserted, conflicted}` split with
`inserted = 2` is reported. -/
theorem sentence_count_includes_conflicts_cex :
    code_sentences_file
        [{ cid := 1, fid := 1, pos0 := 7, pos1 := 12, seltext := "B cat".toList,
           owner := "A" }]
        1 1 "A" ("cat".toList) (". ".toList) ("A cat. B cat. C cat".toList) =
      ([{ cid := 1, fid := 1, pos0 := 7, pos1 := 12, seltext := "B cat".toList,
          owner := "A" },
        { cid := 1, fid := 1, pos0 := 0, pos1 := 5, seltext := "A cat".toList,
          owner := "A" },
        { cid := 1, fid := 1, pos0 := 14, pos1 := 19, seltext := "C cat".toList,
          owner := "A" }], 3) := by
  decide

/-- One insert attempt never removes stored rows: the store is an initial
segment of the result. -/
theorem dbInsert_keeps_rows (db : List CodedText) (r : CodedText) :
    db <+: dbInsert db r := by
  unfold dbInsert
  split_ifs
  · exact ⟨[r], rfl⟩
  · exact ⟨[], List.append_nil db⟩

/-- A fold of insert attempts never removes stored rows. -/
theorem insert_fold_keeps_rows {A : Type} (ps : List A) (db : List CodedText)
    (f : A → CodedText) :
    db <+: ps.foldl (fun d p => dbInsert d (f p)) db := by
  induction ps generalizing db with
  | nil => exact ⟨[], List.append_nil db⟩
  | cons p ps ih =>
    exact List.IsPrefix.trans (dbInsert_keeps_rows db (f p)) (ih (dbInsert db (f p)))

/-- C7 amended: a duplicate-key conflict never aborts an auto-coding run —
the rows present before the run survive it, and in the concrete
literal-match run over `"cat dog cat cat"` with a pre-existing identical
span at `[8,11)`, the match at offset 8 conflicts while the matches at 0
and 12 (the latter attempted after the conflict) are still inserted; the
literal rule reports no counts, and the single per-document
count of the sentence rule tallies attempted insertions including
conflicted ones. -/
theorem auto_code_conflict_not_fatal :
    auto_code_file
        [{ cid := 1, fid := 1, pos0 := 8, pos1 := 11, seltext := "cat".toList,
           owner := "A" }]
        1 1 "A" ("cat".toList) ("cat dog cat cat".toList) =
      [{ cid := 1, fid := 1, pos0 := 8, pos1 := 11, seltext := "cat".toList,
         owner := "A" },
       { cid := 1, fid := 1, pos0 := 0, pos1 := 3, seltext := "cat".toList,
         owner := "A" },
       { cid := 1, fid := 1, pos0 := 12, pos1 := 15, seltext := "cat".toList,
         owner := "A" }] ∧
    ∀ (db : List CodedText) (cid fid : Int) (owner : String) (txt text : List Char),
      db <+: auto_code_file db cid fid owner txt text := by
  refine ⟨by decide, ?_⟩
  intro db cid fid owner txt text
  unfold auto_code_file
  exact insert_fold_keeps_rows _ db _

/-! ## C9: delete scoping -/

/-- C9 counterexample: the annotation removal path deletes with
`delete from annotation where pos0 = ?`; with two annotations starting at
position 5 — one by owner "A" in document 1, one by owner "B" in
document 2 — removing the first deletes both: the span of owner "B" in another
document does not survive the delete issued by coder "A". -/
theorem note_delete_crosses_owners_cex :
    note_delete_db
        [{ anid := 1, fid := 1, pos0 := 5, pos1 := 9, owner := "A" },
         { anid := 2, fid := 2, pos0 := 5, pos1 := 7, owner := "B" }] 5 = [] ∧
    ({ anid := 2, fid := 2, pos0 := 5, pos1 := 7, owner := "B" } : NoteRow).owner ≠
      "A" ∧
    ({ anid := 2, fid := 2, pos0 := 5, pos1 := 7, owner := "B" } : NoteRow).fid ≠ 1 := by
  refine ⟨by decide, by decide, by decide⟩

/-- C9 amended: the coded-span delete (`unmark`) is owner- and
document-scoped: a stored span whose owner differs from the requesting
coder, or whose document differs from that of the selected span, survives the
delete, and any span removed by it had the coder as owner and the document
of the selected span. -/
theorem unmark_owner_scoped (db : List CodedText) (coder : String)
    (u r : CodedText) (hr : r ∈ db) :
    (r.owner ≠ coder → r ∈ unmark_delete db coder u) ∧
    (r.fid ≠ u.fid → r ∈ unmark_delete db coder u) ∧
    (r ∉ unmark_delete db coder u → r.owner = coder ∧ r.fid = u.fid) := by
  have key : r ∈ unmark_delete db coder u ↔
      ¬(r.cid = u.cid ∧ r.pos0 = u.pos0 ∧ r.pos1 = u.pos1 ∧
        r.owner = coder ∧ r.fid = u.fid) := by
    simp [unmark_delete, List.mem_filter, hr, and_assoc]
    tauto
  refine ⟨fun h => key.mpr (fun hc => h hc.2.2.2.1),
          fun h => key.mpr (fun hc => h hc.2.2.2.2), fun h => ?_⟩
  rw [key] at h
  have hc := not_not.mp h
  exact ⟨hc.2.2.2.1, hc.2.2.2.2⟩

/-- Witness for `unmark_owner_scoped`: a store holding spans of owners
"A" and "B"; the coder "A" deletes the first span of document 1. -/
theorem unmark_owner_scoped_wit :
    (({ cid := 1, fid := 2, pos0 := 0, pos1 := 3, seltext := [],
        owner := "B" } : CodedText).owner ≠ "A" →
      ({ cid := 1, fid := 2, pos0 := 0, pos1 := 3, seltext := [],
         owner := "B" } : CodedText) ∈
        unmark_delete
          [{ cid := 1, fid := 1, pos0 := 0, pos1 := 3, seltext := [], owner := "A" },
           { cid := 1, fid := 2, pos0 := 0, pos1 := 3, seltext := [], owner := "B" }]
          "A" { cid := 1, fid := 1, pos0 := 0, pos1 := 3, seltext := [], owner := "A" }) ∧
    (({ cid := 1, fid := 2, pos0 := 0, pos1 := 3, seltext := [],
        owner := "B" } : CodedText).fid ≠
        ({ cid := 1, fid := 1, pos0 := 0, pos1 := 3, seltext := [],
           owner := "A" } : CodedText).fid →
      ({ cid := 1, fid := 2, pos0 := 0, pos1 := 3, seltext := [],
         owner := "B" } : CodedText) ∈
        unmark_delete
          [{ cid := 1, fid := 1, pos0 := 0, pos1 := 3, seltext := [], owner := "A" },
           { cid := 1, fid := 2, pos0 := 0, pos1 := 3, seltext := [], owner := "B" }]
          "A" { cid := 1, fid := 1, pos0 := 0, pos1 := 3, seltext := [], owner := "A" }) ∧
    (({ cid := 1, fid := 2, pos0 := 0, pos1 := 3, seltext := [],
        owner := "B" } : CodedText) ∉
        unmark_delete
          [{ cid := 1, fid := 1, pos0 := 0, pos1 := 3, seltext := [], owner := "A" },
           { cid := 1, fid := 2, pos0 := 0, pos1 := 3, seltext := [], owner := "B" }]
          "A" { cid := 1, fid := 1, pos0 := 0, pos1 := 3, seltext := [], owner := "A" } →
      ({ cid := 1, fid := 2, pos0 := 0, pos1 := 3, seltext := [],
         owner := "B" } : CodedText).owner = "A" ∧
      ({ cid := 1, fid := 2, pos0 := 0, pos1 := 3, seltext := [],
         owner := "B" } : CodedText).fid =
        ({ cid := 1, fid := 1, pos0 := 0, pos1 := 3, seltext := [],
           owner := "A" } : CodedText).fid) :=
  unmark_owner_scoped
    [{ cid := 1, fid := 1, pos0 := 0, pos1 := 3, seltext := [], owner := "A" },
     { cid := 1, fid := 2, pos0 := 0, pos1 := 3, seltext := [], owner := "B" }]
    "A" { cid := 1, fid := 1, pos0 := 0, pos1 := 3, seltext := [], owner := "A" }
    { cid := 1, fid := 2, pos0 := 0, pos1 := 3, seltext := [], owner := "B" }
    (by decide)

/-! ## C1 amended: one entry per distinct-start pair -/

/-- C1 amended: for two intersecting spans with distinct start positions,
a two-span snapshot yields exactly one overlaps entry for the unordered
pair, and its two endpoints are `max(i.start, j.start)` and
`min(i.end, j.end)` (reversed, as `(min end, max start)`, in the
partial-overlap branch); spans sharing a start position are double-reported
instead. Concretely, for `a = [0,10)` and `b = [5,15)` exactly one entry is
appended, the reversed pair `(10, 5)` covering `[5,10)`. -/
theorem overlap_pair_single_entry (i j : CodedText) (hne : i.pos0 ≠ j.pos0)
    (hi : i.pos0 < i.pos1) (hj : j.pos0 < j.pos1)
    (h1 : i.pos0 < j.pos1) (h2 : j.pos0 < i.pos1) :
    ((apply_overline_to_overlaps [i, j]).length = 1 ∧
     ∀ p ∈ apply_overline_to_overlaps [i, j],
       min p.1 p.2 = max i.pos0 j.pos0 ∧ max p.1 p.2 = min i.pos1 j.pos1) ∧
    apply_overline_to_overlaps
      [{ cid := 1, fid := 1, pos0 := 0, pos1 := 10, seltext := [], owner := "A" },
       { cid := 2, fid := 1, pos0 := 5, pos1 := 15, seltext := [], owner := "A" }] =
      [(10, 5)] := by
  refine ⟨?_, by decide⟩
  rw [apply_overline_pair]
  have hij : ¬ (j = i) := fun hh => hne (by rw [hh])
  have hji : ¬ (i = j) := fun hh => hne (by rw [hh])
  unfold overlapEntries
  rw [if_neg hij, if_neg hji]
  split_ifs <;>
    first
      | (exfalso; omega)
      | (refine ⟨by simp, ?_⟩
         intro p hp
         simp only [List.append_nil, List.nil_append, List.cons_append,
           List.mem_singleton, List.mem_cons, List.not_mem_nil, or_false] at hp
         subst hp
         constructor <;> simp <;> omega)

/-- Witness for `overlap_pair_single_entry` at `a = [0,10)`, `b = [5,15)`. -/
theorem overlap_pair_single_entry_wit :
    (((apply_overline_to_overlaps
        [{ cid := 1, fid := 1, pos0 := 0, pos1 := 10, seltext := [], owner := "A" },
         { cid := 2, fid := 1, pos0 := 5, pos1 := 15, seltext := [], owner := "A" }]).length = 1 ∧
      ∀ p ∈ apply_overline_to_overlaps
        [{ cid := 1, fid := 1, pos0 := 0, pos1 := 10, seltext := [], owner := "A" },
         { cid := 2, fid := 1, pos0 := 5, pos1 := 15, seltext := [], owner := "A" }],
        min p.1 p.2 =
          max ({ cid := 1, fid := 1, pos0 := 0, pos1 := 10, seltext := [],
                 owner := "A" } : CodedText).pos0
            ({ cid := 2, fid := 1, pos0 := 5, pos1 := 15, seltext := [],
               owner := "A" } : CodedText).pos0 ∧
        max p.1 p.2 =
          min ({ cid := 1, fid := 1, pos0 := 0, pos1 := 10, seltext := [],
                 owner := "A" } : CodedText).pos1
            ({ cid := 2, fid := 1, pos0 := 5, pos1 := 15, seltext := [],
               owner := "A" } : CodedText).pos1) ∧
     apply_overline_to_overlaps
       [{ cid := 1, fid := 1, pos0 := 0, pos1 := 10, seltext := [], owner := "A" },
        { cid := 2, fid := 1, pos0 := 5, pos1 := 15, seltext := [], owner := "A" }] =
       [(10, 5)]) :=
  overlap_pair_single_entry
    { cid := 1, fid := 1, pos0 := 0, pos1 := 10, seltext := [], owner := "A" }
    { cid := 2, fid := 1, pos0 := 5, pos1 := 15, seltext := [], owner := "A" }
    (by decide) (by decide) (by decide) (by decide) (by decide)

/-! ## C3 amended: inside spans reject the edit unless they equal it -/

/-- C3 amended: a span lying entirely inside `[edit_start, edit_end]`
either triggers the crossover rejection (when one of its boundaries is
strictly inside the selection) or coincides exactly with the selection;
in the latter case the accepted edit updates it as claimed — concretely,
for the span `[12,14)` equal to the selection and the 5-character
replacement (delta = +3), the span becomes `[12,17)` with `seltext`
recomputed from the new document text. -/
theorem inside_span_dichotomy (st : EditState) (fid selstart selend : Int)
    (s : CodedText) (hmem : s ∈ st.code_text) (hfid : s.fid = fid)
    (h0 : selstart ≤ s.pos0) (h1 : s.pos1 ≤ selend) (hlen : s.pos0 < s.pos1) :
    ((crossover_check st fid selstart selend).crossover = true ∨
      (s.pos0 = selstart ∧ s.pos1 = selend)) ∧
    textEdit_restricted_menu exactSpanState 1 12 14 ("MNOPQ".toList) =
      exactSpanStateAfter := by
  refine ⟨?_, by decide⟩
  by_cases hc : s.pos0 = selstart ∧ s.pos1 = selend
  · exact Or.inr hc
  · left
    have hpred : (decide (s.fid = fid) &&
        ((decide (selstart < s.pos0) && decide (s.pos0 < selend)) ||
         (decide (selstart < s.pos1) && decide (s.pos1 < selend)))) = true := by
      simp only [Bool.and_eq_true, Bool.or_eq_true, decide_eq_true_eq]
      exact ⟨hfid, by omega⟩
    have hmm : (s.pos0, s.pos1) ∈ code_cross_rows st fid selstart selend :=
      List.mem_map_of_mem _ (List.mem_filter.mpr ⟨hmem, hpred⟩)
    have hne : code_cross_rows st fid selstart selend ≠ [] :=
      List.ne_nil_of_mem hmm
    unfold crossover_check
    rw [if_neg hne]

/-- Witness for `inside_span_dichotomy` at the span `[12,15)` inside the
selection `[10,20)` of `insideSpanState`. -/
theorem inside_span_dichotomy_wit :
    (((crossover_check insideSpanState 1 10 20).crossover = true ∨
       (({ cid := 1, fid := 1, pos0 := 12, pos1 := 15, seltext := "mno".toList,
           owner := "A" } : CodedText).pos0 = 10 ∧
        ({ cid := 1, fid := 1, pos0 := 12, pos1 := 15, seltext := "mno".toList,
           owner := "A" } : CodedText).pos1 = 20)) ∧
     textEdit_restricted_menu exactSpanState 1 12 14 ("MNOPQ".toList) =
       exactSpanStateAfter) :=
  inside_span_dichotomy insideSpanState 1 10 20
    { cid := 1, fid := 1, pos0 := 12, pos1 := 15, seltext := "mno".toList,
      owner := "A" }
    (by decide) rfl (by decide) (by decide) (by decide)

/-! ## C4 amended: code/annotation straddles reject the edit unchanged -/

/-- C4 amended: a span straddling the edit selection — a `pos0` or `pos1`
strictly inside `(selstart, selend)` — in the coded-span or annotation
collection makes `crossover_check` report a crossover, the edit is refused
with the state unchanged, and at least one conflicting row is reported in
the warning lists (those of the first conflicting collection); case-link
straddles are not checked. -/
theorem straddle_rejects_edit (st : EditState) (fid selstart selend : Int)
    (newtext : List Char) (s : CodedText) (a : NoteRow)
    (h : (s ∈ st.code_text ∧ s.fid = fid ∧
           ((selstart < s.pos0 ∧ s.pos0 < selend) ∨
            (selstart < s.pos1 ∧ s.pos1 < selend))) ∨
         (a ∈ st.notes ∧ a.fid = fid ∧
           ((selstart < a.pos0 ∧ a.pos0 < selend) ∨
            (selstart < a.pos1 ∧ a.pos1 < selend)))) :
    (crossover_check st fid selstart selend).crossover = true ∧
    textEdit_restricted_menu st fid selstart selend newtext = st ∧
    (crossover_check st fid selstart selend).code_crossover ++
      (crossover_check st fid selstart selend).annote_crossover ≠ [] := by
  have hmain : (crossover_check st fid selstart selend).crossover = true ∧
      (crossover_check st fid selstart selend).code_crossover ++
        (crossover_check st fid selstart selend).annote_crossover ≠ [] := by
    by_cases hcode : code_cross_rows st fid selstart selend = []
    · rcases h with ⟨hm, hf, hdisj⟩ | ⟨hm, hf, hdisj⟩
      · exfalso
        have hpred : (decide (s.fid = fid) &&
            ((decide (selstart < s.pos0) && decide (s.pos0 < selend)) ||
             (decide (selstart < s.pos1) && decide (s.pos1 < selend)))) = true := by
          simp only [Bool.and_eq_true, Bool.or_eq_true, decide_eq_true_eq]
          exact ⟨hf, by omega⟩
        exact List.ne_nil_of_mem
          (List.mem_map_of_mem _ (List.mem_filter.mpr ⟨hm, hpred⟩)) hcode
      · have hpred : (decide (a.fid = fid) &&
            ((decide (selstart < a.pos0) && decide (a.pos0 < selend)) ||
             (decide (selstart < a.pos1) && decide (a.pos1 < selend)))) = true := by
          simp only [Bool.and_eq_true, Bool.or_eq_true, decide_eq_true_eq]
          exact ⟨hf, by omega⟩
        have hann : ann_cross_rows st fid selstart selend ≠ [] :=
          List.ne_nil_of_mem
            (List.mem_map_of_mem _ (List.mem_filter.mpr ⟨hm, hpred⟩))
        unfold crossover_check
        rw [if_pos hcode, if_neg hann]
        exact ⟨rfl, by simpa using hann⟩
    · unfold crossover_check
      rw [if_neg hcode]
      exact ⟨rfl, by simpa using hcode⟩
  refine ⟨hmain.1, ?_, hmain.2⟩
  unfold textEdit_restricted_menu
  by_cases g1 : st.fulltext = []
  · rw [if_pos g1]
  · rw [if_neg g1]
    simp [hmain.1]

/-- Witness for `straddle_rejects_edit` at `insideSpanState`, whose span
`[12,15)` straddles the selection `[10,20)` with `pos0` strictly inside. -/
theorem straddle_rejects_edit_wit :
    ((crossover_check insideSpanState 1 10 20).crossover = true ∧
     textEdit_restricted_menu insideSpanState 1 10 20 ("YZ".toList) =
       insideSpanState ∧
     (crossover_check insideSpanState 1 10 20).code_crossover ++
       (crossover_check insideSpanState 1 10 20).annote_crossover ≠ []) :=
  straddle_rejects_edit insideSpanState 1 10 20 ("YZ".toList)
    { cid := 1, fid := 1, pos0 := 12, pos1 := 15, seltext := "mno".toList,
      owner := "A" }
    { anid := 1, fid := 1, pos0 := 0, pos1 := 1, owner := "A" }
    (Or.inl ⟨by decide, rfl, by decide⟩)
